import Mathlib

/-!
Shallow embedding of the `torrentapi` Go package (RARBG Torrent API client).

Time instants are modelled as integers (`Int`); `time.Now()` becomes an
explicit `now` argument.  The injected HTTP transport together with the JSON
decoding performed in `getResults` / `renewToken` is modelled by an
environment (`Env`) holding the successive outcomes the remote endpoint
produces; each outcome is either an error string (transport failure or
envelope-decode failure) or a decoded value.  Mutation of the `API` struct is
modelled by explicit state passing.
-/

namespace TorrentAPI

/-- Error code the API returns when the token has expired
(`errCodeTokenExpired` in the source). -/
def errCodeTokenExpired : Int := 4

/-- Error code the API returns when there are no torrents to show
(`errCodeNoTorrents` in the source). -/
def errCodeNoTorrents : Int := 20

/-- `Token` keeps the token string and its expiration instant. -/
structure Token where
  token : String
  expires : Int
  deriving DecidableEq, Repr

/-- `Token.IsValid`: a token is invalid when its string is empty or when
`time.Now().After(t.Expires)` holds, i.e. when `now > expires` strictly. -/
def Token.IsValid (t : Token) (now : Int) : Bool :=
  if t.token = "" then false
  else if now > t.expires then false
  else true

/-- `EpisodeInfo` from the `episode_info` key of a result. -/
structure EpisodeInfo where
  imdb : String := ""
  tvdb : String := ""
  tvrage : String := ""
  themoviedb : String := ""
  airdate : String := ""
  seasonnum : String := ""
  epnum : String := ""
  title : String := ""
  deriving DecidableEq, Repr

/-- `TorrentResult`: a single torrent returned from the API. -/
structure TorrentResult where
  title : String := ""
  filename : String := ""
  category : String := ""
  download : String := ""
  seeders : Int := 0
  leechers : Int := 0
  size : Nat := 0
  pubdate : String := ""
  ranked : Int := 0
  infoPage : String := ""
  episodeInfo : EpisodeInfo := {}
  deriving DecidableEq, Repr

/-- The raw `torrent_results` payload (`json.RawMessage` in the source): a
deferred JSON fragment whose unmarshalling either succeeds with a list of
results or fails with a decode message. -/
inductive RawTorrents where
  | valid (rs : List TorrentResult)
  | malformed (msg : String)
  deriving DecidableEq, Repr

/-- `json.Unmarshal` applied to the raw `torrent_results` payload. -/
def unmarshalTorrents : RawTorrents → Except String (List TorrentResult)
  | .valid rs => .ok rs
  | .malformed msg => .error msg

/-- `APIResponse`: the JSON envelope; `torrents = none` models a `null`
(absent) `torrent_results` key. -/
structure APIResponse where
  torrents : Option RawTorrents
  error : String := ""
  errorCode : Int := 0
  deriving DecidableEq, Repr

/-- Go errors as seen by `call`: the distinguished `*expiredTokenError`
versus every other error (generic `fmt.Errorf` errors, transport errors,
decode errors).  `call`'s type assertion `err.(*expiredTokenError)` succeeds
exactly on the first constructor. -/
inductive GoError where
  | expiredToken (s : String)
  | other (s : String)
  deriving DecidableEq, Repr

/-- Whether the type assertion `err.(*expiredTokenError)` succeeds. -/
def isExpiredTokenErr : Option GoError → Bool
  | some (.expiredToken _) => true
  | _ => false

/-- The `API` struct: accumulated query string, current token, accumulated
category list, base URL and configured token-expiration duration.  The
injected `fetch` function is modelled separately by `Env`. -/
structure API where
  query : String
  apiToken : Token
  categories : List Int
  apiURL : String
  tokenExpiration : Int
  deriving DecidableEq, Repr

/- Hexadecimal digit used by percent-encoding (Go uses upper-case hex). -/
def hexDigit (n : Nat) : Char :=
  if n < 10 then Char.ofNat (48 + n) else Char.ofNat (55 + n)

/-- Escape a single byte the way Go's `url.QueryEscape` does: bytes in
`[A-Za-z0-9-_.~]` are kept, a space becomes `+`, everything else becomes
`%XX` with upper-case hex. -/
def escapeByte (n : Nat) : String :=
  if (65 ≤ n ∧ n ≤ 90) ∨ (97 ≤ n ∧ n ≤ 122) ∨ (48 ≤ n ∧ n ≤ 57)
      ∨ n = 45 ∨ n = 95 ∨ n = 46 ∨ n = 126 then
    String.singleton (Char.ofNat n)
  else if n = 32 then "+"
  else "%" ++ String.singleton (hexDigit (n / 16)) ++ String.singleton (hexDigit (n % 16))

/-- Go's `url.QueryEscape`, applied byte-wise to the UTF-8 encoding. -/
def queryEscape (s : String) : String :=
  String.join ((s.toUTF8.toList.map (fun b => escapeByte b.toNat)))

/-- `SearchString` adds the search string to the query. -/
def API.SearchString (api : API) (query : String) : API :=
  { api with query := api.query ++ ("&search_string=" ++ queryEscape query) }

/-- `Category` adds a category to the accumulated category list. -/
def API.Category (api : API) (category : Int) : API :=
  { api with categories := api.categories ++ [category] }

/-- `SearchTVDB` adds a TheTVDB id to the query. -/
def API.SearchTVDB (api : API) (seriesid : String) : API :=
  { api with query := api.query ++ ("&search_tvdb=" ++ seriesid) }

/-- `SearchImDB` adds an ImDB id to the query. -/
def API.SearchImDB (api : API) (movieid : String) : API :=
  { api with query := api.query ++ ("&search_imdb=" ++ movieid) }

/-- `SearchTheMovieDB` adds a TheMovieDB id to the query. -/
def API.SearchTheMovieDB (api : API) (movieid : String) : API :=
  { api with query := api.query ++ ("&search_themoviedb=" ++ movieid) }

/-- `Format` requests a results format. -/
def API.Format (api : API) (format : String) : API :=
  { api with query := api.query ++ ("&format=" ++ format) }

/-- `Limit` adds a limit to the number of results. -/
def API.Limit (api : API) (limit : Int) : API :=
  { api with query := api.query ++ ("&limit=" ++ toString limit) }

/-- `Sort` selects the sort order. -/
def API.Sort (api : API) (sort : String) : API :=
  { api with query := api.query ++ ("&sort=" ++ sort) }

/-- `Ranked` sets whether returned results should be ranked. -/
def API.Ranked (api : API) (ranked : Bool) : API :=
  if ranked then { api with query := api.query ++ "&ranked=1" }
  else { api with query := api.query ++ "&ranked=0" }

/-- `MinSeeders` specifies the minimum number of seeders. -/
def API.MinSeeders (api : API) (minSeed : Int) : API :=
  { api with query := api.query ++ ("&min_seeders=" ++ toString minSeed) }

/-- `MinLeechers` specifies the minimum number of leechers. -/
def API.MinLeechers (api : API) (minLeech : Int) : API :=
  { api with query := api.query ++ ("&min_leechers=" ++ toString minLeech) }

/-- `processResponse`: process the JSON envelope received from the API.
Returns the `(data, err)` pair of the Go function; `query` is the value of
`api.Query` at the time of the call (used in error messages). -/
def processResponse (query : String) (r : APIResponse) :
    List TorrentResult × Option GoError :=
  match r.torrents with
  | some raw =>
    match unmarshalTorrents raw with
    | .ok ds => (ds, none)
    | .error m => ([], some (.other ("query: " ++ query ++ ", Error: " ++ m)))
  | none =>
    if r.error ≠ "" then
      if r.errorCode = errCodeTokenExpired then
        ([], some (.expiredToken "expired token"))
      else if r.errorCode = errCodeNoTorrents then
        ([], none)
      else
        ([], some (.other ("query: " ++ query ++ ", Error: " ++ r.error
          ++ ", Error code: " ++ toString r.errorCode ++ ")")))
    else
      ([], some (.other ("query: " ++ query ++ ", Unknown error: %!s(<nil>)")))

/-- `initQuery` cleans the query state: the category list becomes empty and
the query string becomes `""`. -/
def initQuery (api : API) : API :=
  { api with categories := [], query := "" }

/-- `renewToken`: fetch a new token from the token endpoint.  `outcome` is
the combined result of the transport fetch and the JSON decode of the token
response (an error in either leaves the API state unchanged); on success the
new token's expiry is `now + api.tokenExpiration`. -/
def renewToken (api : API) (outcome : Except String String) (now : Int) :
    Except String API :=
  match outcome with
  | .error e => .error e
  | .ok tok =>
    .ok { api with apiToken := { token := tok, expires := now + api.tokenExpiration } }

/-- Environment supplying the behaviour of the injected transport during one
terminal call: the current time, the successive outcomes of `getResults`
(fetch plus envelope decode), and the successive outcomes of `renewToken`'s
fetch-and-decode, each consumed in order. -/
structure Env where
  now : Int
  fetches : List (Except String APIResponse)
  renews : List (Except String String)
  deriving Repr

/-- The category flush of `call` (lines 213-219 of the source): when the
accumulated category list is non-empty, append a single
`&category=a;b;c` fragment, the values joined by `;`. -/
def queryAfterCategories (api : API) : String :=
  if api.categories.length > 0 then
    api.query ++ ("&category="
      ++ String.intercalate ";" (api.categories.map (fun c => toString c)))
  else api.query

/-- Result of a terminal call: the `(data, err)` pair returned by `call`,
the final API state, and (as instrumentation) the list of URLs passed to
`getResults`, in order. -/
structure CallResult where
  data : List TorrentResult
  err : Option GoError
  api : API
  fetchedURLs : List String
  deriving Repr

/-- `call`: calls the API and processes the response, mirroring the Go
control flow.  If the token is invalid it is first renewed (failure returns
immediately).  The category list is flushed into the query, the request URL
is composed once (`%s&token=%s%s`), and the response processed.  A
distinguished expired-token error triggers exactly one retry: renew, fetch
again with the SAME `query` string (the local variable is not rebuilt), and
reprocess.  `initQuery` runs only on the paths that fall through to the end
of the function. -/
def call (api0 : API) (env : Env) : CallResult :=
  let step1 : Except String (API × List (Except String String)) :=
    if api0.apiToken.IsValid env.now then .ok (api0, env.renews)
    else
      match renewToken api0 (env.renews.getD 0 (.error "no response")) env.now with
      | .error e => .error e
      | .ok api' => .ok (api', env.renews.drop 1)
  match step1 with
  | .error e => { data := [], err := some (.other e), api := api0, fetchedURLs := [] }
  | .ok (api1, renews1) =>
    let api2 := { api1 with query := queryAfterCategories api1 }
    let query := api2.apiURL ++ "&token=" ++ api2.apiToken.token ++ api2.query
    match env.fetches.getD 0 (.error "no response") with
    | .error e =>
      { data := [], err := some (.other e), api := api2, fetchedURLs := [query] }
    | .ok r =>
      match processResponse api2.query r with
      | (_, some (.expiredToken _)) =>
        match renewToken api2 (renews1.getD 0 (.error "no response")) env.now with
        | .error e =>
          { data := [], err := some (.other e), api := api2, fetchedURLs := [query] }
        | .ok api3 =>
          match env.fetches.getD 1 (.error "no response") with
          | .error e =>
            { data := [], err := some (.other e), api := api3,
              fetchedURLs := [query, query] }
          | .ok r2 =>
            let res2 := processResponse api3.query r2
            { data := res2.1, err := res2.2, api := initQuery api3,
              fetchedURLs := [query, query] }
      | (data, err) =>
        { data := data, err := err, api := initQuery api2, fetchedURLs := [query] }

/-- `List` appends `&mode=list` and performs the call. -/
def API.List (api : API) (env : Env) : CallResult :=
  call { api with query := api.query ++ "&mode=list" } env

/-- `Search` appends `&mode=search` and performs the call. -/
def API.Search (api : API) (env : Env) : CallResult :=
  call { api with query := api.query ++ "&mode=search" } env


/-! ### Concrete inputs used by the closed theorems and witnesses below -/

/-- Client whose token is valid until instant 10, no categories. -/
def apiC7 : API :=
  { query := "&mode=list", apiToken := { token := "T", expires := 10 },
    categories := [], apiURL := "U?", tokenExpiration := 890 }

/-- Environment producing one successful empty-results fetch. -/
def envC7 : Env :=
  { now := 0,
    fetches := [.ok { torrents := some (.valid []), error := "", errorCode := 0 }],
    renews := [] }

/-- Client mid-query with an invalid (empty) token. -/
def apiResetCE : API :=
  { query := "&search_string=abc&mode=search",
    apiToken := { token := "", expires := 0 },
    categories := [1], apiURL := "U?", tokenExpiration := 890 }

/-- Environment whose token renewal fails with a transport error. -/
def envResetCE : Env :=
  { now := 50, fetches := [], renews := [.error "network down"] }

/-- Client with a valid token, used for the retry-gating witness. -/
def apiC4w : API :=
  { query := "&mode=list", apiToken := { token := "T", expires := 10 },
    categories := [], apiURL := "U?", tokenExpiration := 890 }

/-- Environment producing one benign no-torrents response. -/
def envC4w : Env :=
  { now := 0,
    fetches := [.ok { torrents := none, error := "No results", errorCode := 20 }],
    renews := [] }

/-- The benign no-torrents envelope of `envC4w`. -/
def rC4w : APIResponse := { torrents := none, error := "No results", errorCode := 20 }

/-- Client with an invalid token and a pending category. -/
def apiC2w : API :=
  { query := "&mode=list", apiToken := { token := "", expires := 0 },
    categories := [5], apiURL := "U?", tokenExpiration := 890 }

/-- Environment where every renewal and fetch succeeds: the first response is
an expired-token error, the second carries an empty valid result list. -/
def envC2w : Env :=
  { now := 3,
    fetches := [.ok { torrents := none, error := "Token expired", errorCode := 4 },
                .ok { torrents := some (.valid []), error := "", errorCode := 0 }],
    renews := [.ok "A", .ok "B"] }

/-- Client holding the soon-to-expire token `OLD`, valid at instant 50. -/
def apiRetry : API :=
  { query := "&mode=search", apiToken := { token := "OLD", expires := 100 },
    categories := [], apiURL := "U?", tokenExpiration := 890 }

/-- Environment where the remote reports an expired token on both fetches and
renewal yields the fresh token `NEW`. -/
def envRetry : Env :=
  { now := 50,
    fetches := [.ok { torrents := none, error := "Token expired", errorCode := 4 },
                .ok { torrents := none, error := "Token expired", errorCode := 4 }],
    renews := [.ok "NEW"] }


end TorrentAPI

namespace TorrentAPI

/-! ## Claim C6 -/

/-- Claim C6: for every token whose string value is empty, `IsValid` returns
false, for every expiry timestamp and at every current time. -/
theorem c6_empty_token_never_valid (t : Token) (now : Int) (h : t.token = "") :
    t.IsValid now = false := by
  simp [Token.IsValid, h]

/-- Witness for C6 at a concrete token and instant. -/
theorem c6_empty_token_never_valid_witness :
    ({ token := "", expires := 1000 } : Token).token = ""
    ∧ ({ token := "", expires := 1000 } : Token).IsValid 3 = false :=
  ⟨rfl, c6_empty_token_never_valid { token := "", expires := 1000 } 3 rfl⟩

/-! ## Claim C3 -/

/-- Counterexample to claim C3: a token with non-empty string value and
expiry instant 5 is still reported valid at the instant 5 itself, whereas
the claim says `IsValid` returns false at the exact expiry instant. -/
theorem c3_counterexample :
    ("abc" : String) ≠ ""
    ∧ ({ token := "abc", expires := 5 } : Token).IsValid 5 = true := by
  refine ⟨by decide, by decide⟩

/-- Claim C3 (amended): for every token with a non-empty string value,
`IsValid` returns true at any instant at or before the expiry timestamp, and
false strictly after it. -/
theorem c3_valid_iff_now_le_expiry (t : Token) (now : Int) (h : t.token ≠ "") :
    t.IsValid now = true ↔ now ≤ t.expires := by
  simp [Token.IsValid, h]

/-- Witness for (amended) C3 at a concrete token and instant. -/
theorem c3_valid_iff_now_le_expiry_witness :
    ({ token := "a", expires := 10 } : Token).token ≠ ""
    ∧ (({ token := "a", expires := 10 } : Token).IsValid 3 = true ↔ (3 : Int) ≤ 10) :=
  ⟨by decide, c3_valid_iff_now_le_expiry { token := "a", expires := 10 } 3 (by decide)⟩

/-! ## Claim C5 -/

/-- Claim C5: for every envelope with null results payload, non-empty error
string and error code 20 (no torrents found), `processResponse` returns an
empty result list and no error. -/
theorem c5_no_torrents_is_benign_empty (q : String) (r : APIResponse)
    (ht : r.torrents = none) (he : r.error ≠ "")
    (hc : r.errorCode = errCodeNoTorrents) :
    processResponse q r = ([], none) := by
  simp [processResponse, ht, he, hc, errCodeNoTorrents, errCodeTokenExpired]

/-- Witness for C5 on the spec's example envelope. -/
theorem c5_no_torrents_is_benign_empty_witness :
    ({ torrents := none, error := "No results found", errorCode := 20 } : APIResponse).torrents = none
    ∧ ({ torrents := none, error := "No results found", errorCode := 20 } : APIResponse).error ≠ ""
    ∧ ({ torrents := none, error := "No results found", errorCode := 20 } : APIResponse).errorCode = errCodeNoTorrents
    ∧ processResponse "q" { torrents := none, error := "No results found", errorCode := 20 } = ([], none) :=
  ⟨rfl, by decide, by decide,
    c5_no_torrents_is_benign_empty "q"
      { torrents := none, error := "No results found", errorCode := 20 }
      rfl (by decide) (by decide)⟩

/-! ## Claim C8 -/

/-- Claim C8: for every envelope with neither a results payload nor a
non-empty error string, `processResponse` returns no results and a generic
error whose message identifies an unknown error. -/
theorem c8_unknown_error (q : String) (r : APIResponse)
    (ht : r.torrents = none) (he : r.error = "") :
    processResponse q r
      = ([], some (GoError.other ("query: " ++ q ++ ", Unknown error: %!s(<nil>)"))) := by
  simp [processResponse, ht, he]

/-- Witness for C8 at a concrete envelope. -/
theorem c8_unknown_error_witness :
    ({ torrents := none, error := "", errorCode := 0 } : APIResponse).torrents = none
    ∧ ({ torrents := none, error := "", errorCode := 0 } : APIResponse).error = ""
    ∧ processResponse "q" { torrents := none, error := "", errorCode := 0 }
      = ([], some (GoError.other ("query: " ++ "q" ++ ", Unknown error: %!s(<nil>)"))) :=
  ⟨rfl, rfl, c8_unknown_error "q" { torrents := none, error := "", errorCode := 0 } rfl rfl⟩

/-! ## Claim C9 -/

/-- Claim C9: when the error string is empty, the error code alone never
triggers the expired-token or benign-empty outcomes: for EVERY error code
(in particular 4 and 20) an envelope with null results and empty error
string yields the unknown-error result. -/
theorem c9_empty_error_string_ignores_code (q : String) (code : Int) :
    processResponse q { torrents := none, error := "", errorCode := code }
      = ([], some (GoError.other ("query: " ++ q ++ ", Unknown error: %!s(<nil>)"))) := by
  simp [processResponse]

end TorrentAPI

namespace TorrentAPI

/-! ## Claim C10 -/

/-- Claim C10: every query setter other than `Category` only appends its
fragment to the accumulated query string and leaves the category list, the
stored token, the base URL and the configured expiration unchanged;
`Category` only appends its argument to the category list and leaves the
query string, the stored token, the base URL and the configured expiration
unchanged.  (The fluent `return api` of the Go setters is the returned
state itself in this embedding.) -/
theorem c10_setter_frame_effects (api : API) (s id1 id2 id3 fm srt : String)
    (lim ms ml cat : Int) (rk : Bool) :
    ((api.SearchString s).query = api.query ++ ("&search_string=" ++ queryEscape s)
      ∧ (api.SearchString s).categories = api.categories
      ∧ (api.SearchString s).apiToken = api.apiToken
      ∧ (api.SearchString s).apiURL = api.apiURL
      ∧ (api.SearchString s).tokenExpiration = api.tokenExpiration)
    ∧ ((api.SearchTVDB id1).query = api.query ++ ("&search_tvdb=" ++ id1)
      ∧ (api.SearchTVDB id1).categories = api.categories
      ∧ (api.SearchTVDB id1).apiToken = api.apiToken
      ∧ (api.SearchTVDB id1).apiURL = api.apiURL
      ∧ (api.SearchTVDB id1).tokenExpiration = api.tokenExpiration)
    ∧ ((api.SearchImDB id2).query = api.query ++ ("&search_imdb=" ++ id2)
      ∧ (api.SearchImDB id2).categories = api.categories
      ∧ (api.SearchImDB id2).apiToken = api.apiToken
      ∧ (api.SearchImDB id2).apiURL = api.apiURL
      ∧ (api.SearchImDB id2).tokenExpiration = api.tokenExpiration)
    ∧ ((api.SearchTheMovieDB id3).query = api.query ++ ("&search_themoviedb=" ++ id3)
      ∧ (api.SearchTheMovieDB id3).categories = api.categories
      ∧ (api.SearchTheMovieDB id3).apiToken = api.apiToken
      ∧ (api.SearchTheMovieDB id3).apiURL = api.apiURL
      ∧ (api.SearchTheMovieDB id3).tokenExpiration = api.tokenExpiration)
    ∧ ((api.Format fm).query = api.query ++ ("&format=" ++ fm)
      ∧ (api.Format fm).categories = api.categories
      ∧ (api.Format fm).apiToken = api.apiToken
      ∧ (api.Format fm).apiURL = api.apiURL
      ∧ (api.Format fm).tokenExpiration = api.tokenExpiration)
    ∧ ((api.Limit lim).query = api.query ++ ("&limit=" ++ toString lim)
      ∧ (api.Limit lim).categories = api.categories
      ∧ (api.Limit lim).apiToken = api.apiToken
      ∧ (api.Limit lim).apiURL = api.apiURL
      ∧ (api.Limit lim).tokenExpiration = api.tokenExpiration)
    ∧ ((api.Sort srt).query = api.query ++ ("&sort=" ++ srt)
      ∧ (api.Sort srt).categories = api.categories
      ∧ (api.Sort srt).apiToken = api.apiToken
      ∧ (api.Sort srt).apiURL = api.apiURL
      ∧ (api.Sort srt).tokenExpiration = api.tokenExpiration)
    ∧ ((api.Ranked rk).query = api.query ++ (if rk then "&ranked=1" else "&ranked=0")
      ∧ (api.Ranked rk).categories = api.categories
      ∧ (api.Ranked rk).apiToken = api.apiToken
      ∧ (api.Ranked rk).apiURL = api.apiURL
      ∧ (api.Ranked rk).tokenExpiration = api.tokenExpiration)
    ∧ ((api.MinSeeders ms).query = api.query ++ ("&min_seeders=" ++ toString ms)
      ∧ (api.MinSeeders ms).categories = api.categories
      ∧ (api.MinSeeders ms).apiToken = api.apiToken
      ∧ (api.MinSeeders ms).apiURL = api.apiURL
      ∧ (api.MinSeeders ms).tokenExpiration = api.tokenExpiration)
    ∧ ((api.MinLeechers ml).query = api.query ++ ("&min_leechers=" ++ toString ml)
      ∧ (api.MinLeechers ml).categories = api.categories
      ∧ (api.MinLeechers ml).apiToken = api.apiToken
      ∧ (api.MinLeechers ml).apiURL = api.apiURL
      ∧ (api.MinLeechers ml).tokenExpiration = api.tokenExpiration)
    ∧ ((api.Category cat).query = api.query
      ∧ (api.Category cat).categories = api.categories ++ [cat]
      ∧ (api.Category cat).apiToken = api.apiToken
      ∧ (api.Category cat).apiURL = api.apiURL
      ∧ (api.Category cat).tokenExpiration = api.tokenExpiration) := by
  cases rk <;>
    exact ⟨⟨rfl, rfl, rfl, rfl, rfl⟩, ⟨rfl, rfl, rfl, rfl, rfl⟩,
      ⟨rfl, rfl, rfl, rfl, rfl⟩, ⟨rfl, rfl, rfl, rfl, rfl⟩,
      ⟨rfl, rfl, rfl, rfl, rfl⟩, ⟨rfl, rfl, rfl, rfl, rfl⟩,
      ⟨rfl, rfl, rfl, rfl, rfl⟩, ⟨rfl, rfl, rfl, rfl, rfl⟩,
      ⟨rfl, rfl, rfl, rfl, rfl⟩, ⟨rfl, rfl, rfl, rfl, rfl⟩,
      ⟨rfl, rfl, rfl, rfl, rfl⟩⟩

end TorrentAPI

namespace TorrentAPI

/-! ## Shared helper lemmas -/

/-- Helper: whenever the token is valid at call time, the first URL handed to
the transport is the base URL followed by the token and the category-flushed
query. -/
theorem call_first_url (api : API) (env : Env)
    (hv : api.apiToken.IsValid env.now = true) :
    (call api env).fetchedURLs.getD 0 ""
      = api.apiURL ++ "&token=" ++ api.apiToken.token ++ queryAfterCategories api := by
  unfold call
  simp only [hv, if_true]
  split <;> try rfl
  split <;> try rfl
  split <;> try rfl
  split <;> rfl

/-- Helper: replacing the token leaves the category flush of the query
unchanged. -/
theorem queryAfterCategories_setToken (api : API) (t : Token) :
    queryAfterCategories { api with apiToken := t } = queryAfterCategories api := rfl

/-! ## Claim C7 -/

/-- Claim C7: after accumulating categories `a`, `b`, `c` through three
`Category` calls on a client with an empty category list, the request URL of
the next terminal call contains exactly one category fragment joining the
three values with the separator `;`; and when no category was set, the URL
contains no category fragment at all. -/
theorem c7_single_category_fragment (api : API) (env : Env) (a b c : Int)
    (hc : api.categories = [])
    (hv : api.apiToken.IsValid env.now = true) :
    (call (((api.Category a).Category b).Category c) env).fetchedURLs.getD 0 ""
      = api.apiURL ++ "&token=" ++ api.apiToken.token
        ++ (api.query ++ ("&category="
            ++ String.intercalate ";" [toString a, toString b, toString c]))
    ∧ (call api env).fetchedURLs.getD 0 ""
      = api.apiURL ++ "&token=" ++ api.apiToken.token ++ api.query := by
  constructor
  · rw [call_first_url (((api.Category a).Category b).Category c) env hv]
    simp [API.Category, queryAfterCategories, hc]
  · rw [call_first_url api env hv]
    simp [queryAfterCategories, hc]

/-- Witness for C7 at the spec's concrete categories 1, 2, 3: the request
carries the single fragment `category=1;2;3`. -/
theorem c7_single_category_fragment_witness :
    apiC7.categories = [] ∧ apiC7.apiToken.IsValid envC7.now = true
    ∧ (call (((apiC7.Category 1).Category 2).Category 3) envC7).fetchedURLs.getD 0 ""
        = "U?&token=T&mode=list&category=1;2;3"
    ∧ (call apiC7 envC7).fetchedURLs.getD 0 "" = "U?&token=T&mode=list" := by
  have h := c7_single_category_fragment apiC7 envC7 1 2 3 rfl (by decide)
  refine ⟨rfl, by decide, ?_, ?_⟩
  · rw [h.1]; rfl
  · rw [h.2]; rfl

/-! ## Claim C4 -/

/-- Claim C4: an envelope with null results payload, non-empty error string
and error code 4 makes `processResponse` return the distinguished
expired-token error (the variant singled out by `isExpiredTokenErr`); and
this is the only error kind the orchestration retries on: whenever
processing the first response does not yield an expired-token error, at most
one fetch is performed. -/
theorem c4_expired_token_only_retry :
    (∀ (q : String) (r : APIResponse), r.torrents = none → r.error ≠ "" →
        r.errorCode = errCodeTokenExpired →
        processResponse q r = ([], some (GoError.expiredToken "expired token")))
    ∧ (∀ (api0 : API) (env : Env) (r0 : APIResponse),
        env.fetches.getD 0 (Except.error "no response") = Except.ok r0 →
        isExpiredTokenErr (processResponse (queryAfterCategories api0) r0).2 = false →
        (call api0 env).fetchedURLs.length ≤ 1) := by
  constructor
  · intro q r ht he hc
    simp [processResponse, ht, he, hc]
  · intro api0 env r0 h0 hnx
    rcases hp : processResponse (queryAfterCategories api0) r0 with ⟨d, e⟩
    rw [hp] at hnx
    unfold call renewToken
    cases hv : api0.apiToken.IsValid env.now with
    | true =>
      simp only [hv, if_true]
      simp only [h0, hp]
      rcases e with _ | g
      · simp
      · cases g with
        | expiredToken s => simp [isExpiredTokenErr] at hnx
        | other s => simp
    | false =>
      simp only [hv, Bool.false_eq_true, if_false]
      rcases hr : env.renews.getD 0 (Except.error "no response") with e1 | tok
      · simp [hr]
      · simp only [hr, h0, queryAfterCategories_setToken, hp]
        rcases e with _ | g
        · simp
        · cases g with
          | expiredToken s => simp [isExpiredTokenErr] at hnx
          | other s => simp

/-- Witness for C4: the expired-token envelope is mapped to the
distinguished error, and a benign no-torrents first response leads to a
single fetch. -/
theorem c4_expired_token_only_retry_witness :
    ({ torrents := none, error := "Invalid token", errorCode := 4 } : APIResponse).torrents = none
    ∧ processResponse "q" { torrents := none, error := "Invalid token", errorCode := 4 }
        = ([], some (GoError.expiredToken "expired token"))
    ∧ envC4w.fetches.getD 0 (Except.error "no response") = Except.ok rC4w
    ∧ (call apiC4w envC4w).fetchedURLs.length ≤ 1 :=
  ⟨rfl,
    c4_expired_token_only_retry.1 "q"
      { torrents := none, error := "Invalid token", errorCode := 4 } rfl (by decide) (by decide),
    rfl,
    c4_expired_token_only_retry.2 apiC4w envC4w rC4w rfl (by decide)⟩

end TorrentAPI

namespace TorrentAPI

/-! ## Claim C2 -/

/-- Counterexample to claim C2: when the initial token renewal fails with a
transport error, the terminal call returns that error while the accumulated
query string and the category list are NOT reset to empty. -/
theorem c2_counterexample :
    (call apiResetCE envResetCE).err = some (GoError.other "network down")
    ∧ (call apiResetCE envResetCE).api.query = "&search_string=abc&mode=search"
    ∧ (call apiResetCE envResetCE).api.categories = [1] :=
  ⟨rfl, rfl, rfl⟩

/-- Claim C2 (amended): for every terminal call during which every token
renewal and every transport fetch succeeds (decode failures of the results
payload and remote API errors included), the accumulated query string and
the category list are both empty when the call returns; on token-renewal
failure or fetch failure the accumulated state is instead left in place. -/
theorem c2_reset_when_transport_succeeds (api0 : API) (env : Env)
    (hfl : 2 ≤ env.fetches.length) (hrl : 2 ≤ env.renews.length)
    (hf : ∀ x ∈ env.fetches, ∃ r, x = Except.ok r)
    (hr : ∀ x ∈ env.renews, ∃ t, x = Except.ok t) :
    (call api0 env).api.query = "" ∧ (call api0 env).api.categories = [] := by
  rcases env with ⟨now, fetches, renews⟩
  match fetches, hfl with
  | f0 :: f1 :: fs, _ =>
  match renews, hrl with
  | g0 :: g1 :: gs, _ =>
  obtain ⟨r0, rfl⟩ := hf f0 (by simp)
  obtain ⟨r1, rfl⟩ := hf f1 (by simp)
  obtain ⟨t0, rfl⟩ := hr g0 (by simp)
  obtain ⟨t1, rfl⟩ := hr g1 (by simp)
  unfold call renewToken
  cases hv : api0.apiToken.IsValid now with
  | true =>
    simp only [hv, if_true]
    try dsimp only
    simp only [List.getD_cons_zero, List.getD_cons_succ]
    try dsimp only
    rcases hp : processResponse (queryAfterCategories api0) r0 with ⟨d, e⟩
    rcases e with _ | g
    · dsimp only [initQuery]
      exact ⟨rfl, rfl⟩
    · cases g with
      | expiredToken s =>
        try dsimp only
        try simp only [List.getD_cons_zero, List.getD_cons_succ]
        dsimp only [initQuery]
        exact ⟨rfl, rfl⟩
      | other s =>
        dsimp only [initQuery]
        exact ⟨rfl, rfl⟩
  | false =>
    simp only [hv, Bool.false_eq_true, if_false]
    try dsimp only
    simp only [List.getD_cons_zero, List.getD_cons_succ]
    try dsimp only
    rcases hp : processResponse (queryAfterCategories
        { api0 with apiToken := { token := t0, expires := now + api0.tokenExpiration } }) r0
      with ⟨d, e⟩
    rcases e with _ | g
    · dsimp only [initQuery]
      exact ⟨rfl, rfl⟩
    · cases g with
      | expiredToken s =>
        try dsimp only
        try simp only [List.getD_cons_zero, List.getD_cons_succ]
        dsimp only [initQuery]
        exact ⟨rfl, rfl⟩
      | other s =>
        dsimp only [initQuery]
        exact ⟨rfl, rfl⟩

/-- Witness for (amended) C2: a call that renews the token, hits an
expired-token response, retries and succeeds, ends with empty query state. -/
theorem c2_reset_when_transport_succeeds_witness :
    2 ≤ envC2w.fetches.length ∧ 2 ≤ envC2w.renews.length
    ∧ (call apiC2w envC2w).api.query = ""
    ∧ (call apiC2w envC2w).api.categories = [] := by
  have hf : ∀ x ∈ envC2w.fetches, ∃ r, x = Except.ok r := by
    intro x hx
    fin_cases hx <;> exact ⟨_, rfl⟩
  have hr : ∀ x ∈ envC2w.renews, ∃ t, x = Except.ok t := by
    intro x hx
    fin_cases hx <;> exact ⟨_, rfl⟩
  have h := c2_reset_when_transport_succeeds apiC2w envC2w (by decide) (by decide) hf hr
  exact ⟨by decide, by decide, h.1, h.2⟩

/-! ## Claim C1 -/

/-- Claim C1, evaluated at the failing input: on an expired-token first
response the client renews the token (the final state holds the fresh token
`NEW`) and performs exactly one retry, whose error is returned as is; but
the retry re-fetches the URL string composed BEFORE the renewal, still
embedding the stale token `OLD`, which differs from the URL rebuilt with the
renewed token that the claim prescribes. -/
theorem c1_retry_reuses_stale_token_url :
    (call apiRetry envRetry).api.apiToken.token = "NEW"
    ∧ (call apiRetry envRetry).fetchedURLs
        = ["U?&token=OLD&mode=search", "U?&token=OLD&mode=search"]
    ∧ (call apiRetry envRetry).err = some (GoError.expiredToken "expired token")
    ∧ "U?&token=OLD&mode=search" ≠ apiRetry.apiURL ++ "&token=" ++ "NEW" ++ apiRetry.query :=
  ⟨rfl, rfl, rfl, by decide⟩

end TorrentAPI
